import Mathlib

/-!
Verification of `part4_error_handling.py`.

The file shallowly embeds the three core functions of the source:
`safe_api_request_with_retry`, `validate_crypto_data` and
`safe_api_request`.  Python dictionaries returned by these functions are
modelled as association lists (`PyDict`), decoded JSON payloads as the
inductive `Json`, and the HTTP transport (the `requests.get` call together
with the exceptions it can raise) as an injected `TransportOutcome` value
per attempt.  Logging and `time.sleep` have no observable effect on the
returned values and are omitted.
-/

/-- Decoded JSON values, the payloads produced by `response.json()`. -/
inductive Json where
  | null : Json
  | bool (b : Bool) : Json
  | num (n : Int) : Json
  | str (s : String) : Json
  | arr (elems : List Json) : Json
  | obj (fields : List (String × Json)) : Json

/-- Values stored in the dictionaries the source functions return:
`True`/`False`, message strings, and decoded JSON payloads. -/
inductive PyVal where
  | bool (b : Bool) : PyVal
  | str (s : String) : PyVal
  | json (j : Json) : PyVal

/-- A Python dictionary literal, as an association list in insertion order. -/
abbrev PyDict := List (String × PyVal)

/-- Python type name of a JSON value, used in `TypeError` messages. -/
def pyTypeName : Json → String
  | .null => "NoneType"
  | .bool _ => "bool"
  | .num _ => "int"
  | .str _ => "str"
  | .arr _ => "list"
  | .obj _ => "dict"

/-- Python membership test `key in container` for a string key.  On a dict
it is key membership, on a list it is element equality, on a string it is
substring search; on any other value Python raises `TypeError`. -/
def charsStartWith : List Char → List Char → Bool
  | [], _ => true
  | _ :: _, [] => false
  | a :: as, b :: bs => a == b && charsStartWith as bs

/-- Substring occurrence test on character lists. -/
def charsContain (p : List Char) : List Char → Bool
  | [] => charsStartWith p []
  | c :: cs => charsStartWith p (c :: cs) || charsContain p cs

/-- String containment, mirroring Python `sub in s`. -/
def strContains (s pat : String) : Bool :=
  charsContain pat.toList s.toList

/-- Python `key in container` (`TypeError` for non-iterable containers). -/
def pyContains (container : Json) (key : String) : Except String Bool :=
  match container with
  | .obj fields => .ok (fields.any (fun p => p.1 == key))
  | .arr elems => .ok (elems.any (fun x =>
      match x with
      | .str s => s == key
      | _ => false))
  | .str s => .ok (strContains s key)
  | c => .error ("TypeError: argument of type \x27" ++ pyTypeName c ++
      "\x27 is not iterable")

/-- Python subscript `container[key]` for a string key (`KeyError` when the
key is absent from a dict, `TypeError` on non-subscriptable values). -/
def pyGet (container : Json) (key : String) : Except String Json :=
  match container with
  | .obj fields =>
    match fields.find? (fun p => p.1 == key) with
    | some p => .ok p.2
    | none => .error ("KeyError: \x27" ++ key ++ "\x27")
  | .str _ => .error "TypeError: string indices must be integers"
  | c => .error ("TypeError: \x27" ++ pyTypeName c ++
      "\x27 object is not subscriptable")

/-- The list comprehension
`[field for field in required_fields if field not in container]`,
evaluated left to right; a `TypeError` from the membership test aborts it. -/
def collectMissing (container : Json) : List String → Except String (List String)
  | [] => .ok []
  | f :: fs =>
    match pyContains container f with
    | .error e => .error e
    | .ok present =>
      match collectMissing container fs with
      | .error e => .error e
      | .ok rest => if present then .ok rest else .ok (f :: rest)

/-- Python `repr` of a list of strings, as produced by an f-string
interpolation such as `f"... {missing}"`. -/
def pyReprStrList (xs : List String) : String :=
  "[" ++ String.intercalate ", " (xs.map (fun s => "\x27" ++ s ++ "\x27")) ++ "]"

/-- Embedding of `validate_crypto_data(data)` (source lines 52-73).  The
result is `Except`: `.error` models an uncaught Python exception escaping
the function, `.ok` the returned dictionary. -/
def validate_crypto_data (data : Json) : Except String PyDict :=
  match pyContains data "quotes" with
  | .error e => .error e
  | .ok hasQuotes =>
    if !hasQuotes then
      .ok [("valid", .bool false), ("error", .str "\x27quotes\x27 field missing")]
    else
      match pyGet data "quotes" with
      | .error e => .error e
      | .ok quotes =>
        match pyContains quotes "USD" with
        | .error e => .error e
        | .ok hasUSD =>
          if !hasUSD then
            .ok [("valid", .bool false),
                 ("error", .str "\x27USD\x27 field missing inside quotes")]
          else
            match pyGet quotes "USD" with
            | .error e => .error e
            | .ok usd =>
              match collectMissing usd ["price", "percent_change_24h"] with
              | .error e => .error e
              | .ok missing =>
                if missing.isEmpty then
                  .ok [("valid", .bool true)]
                else
                  .ok [("valid", .bool false),
                       ("error", .str ("Missing fields inside USD: " ++
                          pyReprStrList missing))]

/-- One `requests.get(url, timeout=timeout)` call, including the decoding
behaviour of the response object it returns: `status_code` is the HTTP
status, `http_error_message` is `str(e)` of the `HTTPError` that
`raise_for_status()` raises for an error status, and `body` is the result
of `response.json()` — a decoded payload, or `.error` with
`str(e)` of the `requests.exceptions.JSONDecodeError` it raises. -/
structure HttpResponse where
  status_code : Nat
  http_error_message : String
  body : Except String Json

/-- Outcome of one transport call `requests.get(url, timeout=timeout)`:
either an exception (`ConnectionError`, `Timeout`, or another
`RequestException`, each carrying its `str(e)`), or a response. -/
inductive TransportOutcome where
  | connError (msg : String) : TransportOutcome
  | timeoutErr (msg : String) : TransportOutcome
  | otherReqError (msg : String) : TransportOutcome
  | resp (r : HttpResponse) : TransportOutcome

/-- Embedding of `safe_api_request(url, timeout=5)` (source lines 76-101).
The transport call is injected as its outcome.  `raise_for_status()`
raises `HTTPError` exactly for error statuses (status ≥ 400, per the
spec's transport interface).  A `JSONDecodeError` from `response.json()`
is a `RequestException` but not a `ConnectionError`, `Timeout` or
`HTTPError`, so it is caught by the final handler. -/
def safe_api_request (o : TransportOutcome) (timeout : Nat) : PyDict :=
  match o with
  | .connError _ =>
    [("success", .bool false), ("error", .str "Connection failed. Check your internet.")]
  | .timeoutErr _ =>
    [("success", .bool false),
     ("error", .str ("Request timed out after " ++ toString timeout ++ " seconds."))]
  | .otherReqError m =>
    [("success", .bool false), ("error", .str ("Request failed: " ++ m))]
  | .resp r =>
    if r.status_code ≥ 400 then
      [("success", .bool false),
       ("error", .str ("HTTP Error: " ++ toString r.status_code))]
    else
      match r.body with
      | .ok d => [("success", .bool true), ("data", .json d)]
      | .error m =>
        [("success", .bool false), ("error", .str ("Request failed: " ++ m))]

/-- The `try` block of one attempt inside `safe_api_request_with_retry`:
`requests.get`, `raise_for_status()`, `response.json()`.  All four caught
exception classes are subclasses of `RequestException`, so every failure
is reported uniformly with its `str(e)`. -/
def tryAttempt (o : TransportOutcome) : Except String Json :=
  match o with
  | .connError m => .error m
  | .timeoutErr m => .error m
  | .otherReqError m => .error m
  | .resp r =>
    if r.status_code ≥ 400 then .error r.http_error_message
    else r.body

/-- List `[a, a+1, ..., a+n-1]`. -/
def pyRangeAux : Nat → Int → List Int
  | 0, _ => []
  | n + 1, a => a :: pyRangeAux n (a + 1)

/-- Python `range(a, b)` as a list of integers. -/
def pyRange (a b : Int) : List Int :=
  pyRangeAux (b - a).toNat a

/-- The `for attempt in range(1, retries + 1)` loop of
`safe_api_request_with_retry` (source lines 31-49), one list element per
iteration.  Besides the loop's result (`none` models Python's implicit
`None` when the loop finishes without returning) it counts the attempts
actually performed. -/
def retryLoop (transport : Int → TransportOutcome) (retries : Int) :
    List Int → Option PyDict × Nat
  | [] => (none, 0)
  | attempt :: rest =>
    match tryAttempt (transport attempt) with
    | .ok d => (some [("success", .bool true), ("data", .json d)], 1)
    | .error e =>
      if attempt = retries then
        (some [("success", .bool false),
               ("error", .str ("Failed after " ++ toString retries ++
                  " attempts: " ++ e))], 1)
      else
        ((retryLoop transport retries rest).1, (retryLoop transport retries rest).2 + 1)

/-- Embedding of `safe_api_request_with_retry(url, timeout=5, retries=3)`
(source lines 28-49).  The URL and timeout only influence the injected
transport; `timeout` is kept as an (unused) explicit argument for
faithfulness to the source signature. -/
def safe_api_request_with_retry (transport : Int → TransportOutcome)
    (timeout : Nat) (retries : Int) : Option PyDict :=
  (retryLoop transport retries (pyRange 1 (retries + 1))).1

/-- Number of attempts the retry loop performs. -/
def retryAttemptCount (transport : Int → TransportOutcome) (retries : Int) : Nat :=
  (retryLoop transport retries (pyRange 1 (retries + 1))).2

/-- Key membership in a returned dictionary. -/
def pyHasKey (d : PyDict) (k : String) : Bool :=
  d.any (fun p => p.1 == k)

/-- Lookup in a returned dictionary. -/
def pyLookup (d : PyDict) (k : String) : Option PyVal :=
  (List.find? (fun p => p.1 == k) d).map (fun p => p.2)

lemma charsStartWith_self_append (p y : List Char) :
    charsStartWith p (p ++ y) = true := by
  induction p with
  | nil => rfl
  | cons a as ih => simp [charsStartWith, ih]

lemma charsContain_self_append (p y : List Char) :
    charsContain p (p ++ y) = true := by
  cases p with
  | nil =>
    cases y with
    | nil => rfl
    | cons c cs => simp [charsContain, charsStartWith]
  | cons a as =>
    simp only [List.cons_append, charsContain, Bool.or_eq_true]
    left
    exact charsStartWith_self_append (a :: as) y

lemma charsContain_append_of_contain (p x l : List Char)
    (h : charsContain p l = true) : charsContain p (x ++ l) = true := by
  induction x with
  | nil => exact h
  | cons c cs ih =>
    simp only [List.cons_append, charsContain, Bool.or_eq_true]
    right
    exact ih

lemma toList_append (a b : String) : (a ++ b).toList = a.toList ++ b.toList := by
  simp [String.toList, String.data_append]

lemma strContains_middle (a s b : String) : strContains (a ++ s ++ b) s = true := by
  unfold strContains
  rw [toList_append, toList_append, List.append_assoc]
  exact charsContain_append_of_contain _ _ _ (charsContain_self_append _ _)

lemma strAppend_assoc (a b c : String) : a ++ b ++ c = a ++ (b ++ c) := by
  apply String.ext
  simp [String.data_append]

/-- C1 counterexample: with retry count 0 the retry wrapper returns the
absent result (Python `None`), not a `Failure(InvalidConfiguration)`
dictionary — the claim says it never returns an absent result. -/
theorem C1_counterexample :
    safe_api_request_with_retry (fun _ => .timeoutErr "Read timed out.") 5 0 = none := by
  rfl

/-- C1 (amended): for every transport and timeout, a retry count that is
zero or negative makes the `for attempt in range(1, retries + 1)` loop body
never run, and the function falls through returning `None`; no
`InvalidConfiguration` failure value exists in the code. -/
theorem C1_retry_nonpositive_returns_none
    (transport : Int → TransportOutcome) (timeout : Nat) (retries : Int)
    (h : retries ≤ 0) :
    safe_api_request_with_retry transport timeout retries = none := by
  unfold safe_api_request_with_retry pyRange
  have hz : (retries + 1 - 1).toNat = 0 := by omega
  rw [hz]
  rfl

/-- Witness for C1: the amended theorem applied at retry count `-2`. -/
theorem C1_witness :
    (-2 : Int) ≤ 0 ∧
    safe_api_request_with_retry (fun _ => .connError "refused") 5 (-2) = none :=
  ⟨by decide, C1_retry_nonpositive_returns_none (fun _ => .connError "refused") 5 (-2) (by decide)⟩

/-- C8 counterexample: on the empty payload the validator's reason is
`'quotes' field missing` — with quotation marks around the field name —
which is not the exact string `quotes field missing` the claim states. -/
theorem C8_counterexample :
    validate_crypto_data (.obj []) =
      .ok [("valid", .bool false), ("error", .str "\x27quotes\x27 field missing")] ∧
    "\x27quotes\x27 field missing" ≠ "quotes field missing" :=
  ⟨rfl, by decide⟩

/-- C8 (amended): the validator applied to `{}` returns Invalid with reason
exactly `'quotes' field missing`, and applied to `{"quotes": {}}` returns
Invalid with reason exactly `'USD' field missing inside quotes` (the field
names carry single quotation marks; the first missing tier is named). -/
theorem C8_tier_messages :
    validate_crypto_data (.obj []) =
      .ok [("valid", .bool false), ("error", .str "\x27quotes\x27 field missing")] ∧
    validate_crypto_data (.obj [("quotes", .obj [])]) =
      .ok [("valid", .bool false),
           ("error", .str "\x27USD\x27 field missing inside quotes")] :=
  ⟨rfl, rfl⟩

/-- C10: on `{"quotes": 5}` and on `{"quotes": {"USD": 5}}` the validator
raises a `TypeError` (the membership test `in` on an integer) instead of
returning an Invalid dictionary — it is total only over payloads whose
nested values at `quotes` and `USD` support key membership. -/
theorem C10_validator_raises_type_error :
    validate_crypto_data (.obj [("quotes", .num 5)]) =
      .error "TypeError: argument of type \x27int\x27 is not iterable" ∧
    validate_crypto_data (.obj [("quotes", .obj [("USD", .num 5)])]) =
      .error "TypeError: argument of type \x27int\x27 is not iterable" :=
  ⟨rfl, rfl⟩

lemma retryLoop_all_fail (transport : Int → TransportOutcome)
    (errMsg : Int → String) (N : Int)
    (hfail : ∀ i, 1 ≤ i → tryAttempt (transport i) = .error (errMsg i)) :
    ∀ (n : Nat) (a : Int), a + n = N → 1 ≤ a →
    retryLoop transport N (pyRangeAux (n + 1) a) =
      (some [("success", .bool false),
             ("error", .str ("Failed after " ++ toString N ++ " attempts: " ++
                errMsg N))], n + 1) := by
  intro n
  induction n with
  | zero =>
    intro a ha h1
    have haN : a = N := by omega
    subst haN
    simp [pyRangeAux, retryLoop, hfail a h1]
  | succ n ih =>
    intro a ha h1
    have hne : ¬ (a = N) := by omega
    have hrec := ih (a + 1) (by omega) (by omega)
    have hunfold : pyRangeAux (n + 1 + 1) a = a :: pyRangeAux (n + 1) (a + 1) := rfl
    rw [hunfold]
    revert hrec
    generalize pyRangeAux (n + 1) (a + 1) = rest
    intro hrec
    simp [retryLoop, hfail a h1, hne, hrec]

/-- C3: for a transport whose attempts all fail and any positive retry
count N, the retry wrapper performs exactly N attempts and returns a
failure dictionary whose message states the total attempt count N and the
terminal attempt's message. -/
theorem C3_all_attempts_fail (transport : Int → TransportOutcome)
    (errMsg : Int → String) (timeout : Nat) (N : Int)
    (hfail : ∀ i, 1 ≤ i → tryAttempt (transport i) = .error (errMsg i))
    (hN : 1 ≤ N) :
    retryAttemptCount transport N = N.toNat ∧
    safe_api_request_with_retry transport timeout N =
      some [("success", .bool false),
            ("error", .str ("Failed after " ++ toString N ++ " attempts: " ++
               errMsg N))] ∧
    strContains ("Failed after " ++ toString N ++ " attempts: " ++ errMsg N)
      (toString N) = true := by
  have hrange : pyRange 1 (N + 1) = pyRangeAux (N.toNat - 1 + 1) 1 := by
    unfold pyRange
    congr 1
    omega
  have hloop := retryLoop_all_fail transport errMsg N hfail (N.toNat - 1) 1
    (by omega) (by omega)
  refine ⟨?_, ?_, ?_⟩
  · unfold retryAttemptCount
    rw [hrange, hloop]
    simp
    omega
  · unfold safe_api_request_with_retry
    rw [hrange, hloop]
  · rw [strAppend_assoc ("Failed after " ++ toString N) " attempts: " (errMsg N)]
    exact strContains_middle "Failed after " (toString N) (" attempts: " ++ errMsg N)

/-- Witness for C3: a transport that always times out, with N = 3. -/
theorem C3_witness :
    retryAttemptCount (fun _ => .timeoutErr "Read timed out. (read timeout=5)") 3 = 3 ∧
    safe_api_request_with_retry
      (fun _ => .timeoutErr "Read timed out. (read timeout=5)") 5 3 =
      some [("success", .bool false),
            ("error", .str ("Failed after " ++ toString (3 : Int) ++ " attempts: " ++
               "Read timed out. (read timeout=5)"))] ∧
    strContains ("Failed after " ++ toString (3 : Int) ++ " attempts: " ++
      "Read timed out. (read timeout=5)") (toString (3 : Int)) = true :=
  C3_all_attempts_fail (fun _ => .timeoutErr "Read timed out. (read timeout=5)")
    (fun _ => "Read timed out. (read timeout=5)") 5 3 (fun _ _ => rfl) (by decide)

lemma retryLoop_succeeds_at (transport : Int → TransportOutcome)
    (errMsg : Int → String) (N k : Int) (payload : Json)
    (hk : tryAttempt (transport k) = .ok payload) (hkN : k ≤ N)
    (hfail : ∀ i, 1 ≤ i → i < k → tryAttempt (transport i) = .error (errMsg i)) :
    ∀ (n : Nat) (a : Int) (m : Nat), a + n = k → 1 ≤ a → n < m →
    retryLoop transport N (pyRangeAux m a) =
      (some [("success", .bool true), ("data", .json payload)], n + 1) := by
  intro n
  induction n with
  | zero =>
    intro a m ha h1 hm
    have hak : a = k := by omega
    subst hak
    obtain ⟨m', rfl⟩ : ∃ m', m = m' + 1 := ⟨m - 1, by omega⟩
    simp [pyRangeAux, retryLoop, hk]
  | succ n ih =>
    intro a m ha h1 hm
    have hlt : a < k := by omega
    have hne : ¬ (a = N) := by omega
    obtain ⟨m', rfl⟩ : ∃ m', m = m' + 1 := ⟨m - 1, by omega⟩
    have hrec := ih (a + 1) m' (by omega) (by omega) (by omega)
    simp [pyRangeAux, retryLoop, hfail a h1 hlt, hne, hrec]

/-- C4: for a transport that fails on attempts 1..k-1 and succeeds on
attempt k with k ≤ N, the retry wrapper performs exactly k attempts and
returns Success carrying exactly the payload decoded on attempt k. -/
theorem C4_success_at_k (transport : Int → TransportOutcome)
    (errMsg : Int → String) (timeout : Nat) (N k : Int) (payload : Json)
    (hfail : ∀ i, 1 ≤ i → i < k → tryAttempt (transport i) = .error (errMsg i))
    (hk : tryAttempt (transport k) = .ok payload)
    (h1k : 1 ≤ k) (hkN : k ≤ N) :
    retryAttemptCount transport N = k.toNat ∧
    safe_api_request_with_retry transport timeout N =
      some [("success", .bool true), ("data", .json payload)] := by
  have hrange : pyRange 1 (N + 1) = pyRangeAux N.toNat 1 := by
    unfold pyRange
    congr 1
    omega
  have hloop := retryLoop_succeeds_at transport errMsg N k payload hk hkN hfail
    (k.toNat - 1) 1 N.toNat (by omega) (by omega) (by omega)
  constructor
  · unfold retryAttemptCount
    rw [hrange, hloop]
    simp
    omega
  · unfold safe_api_request_with_retry
    rw [hrange, hloop]

/-- Witness for C4: connection failure on attempt 1, success on attempt 2,
with N = 3. -/
theorem C4_witness :
    retryAttemptCount
      (fun i => if i = 1 then .connError "refused"
        else .resp ⟨200, "", .ok (.obj [("name", .str "Bitcoin")])⟩) 3 = (2 : Int).toNat ∧
    safe_api_request_with_retry
      (fun i => if i = 1 then .connError "refused"
        else .resp ⟨200, "", .ok (.obj [("name", .str "Bitcoin")])⟩) 5 3 =
      some [("success", .bool true), ("data", .json (.obj [("name", .str "Bitcoin")]))] :=
  C4_success_at_k
    (fun i => if i = 1 then .connError "refused"
      else .resp ⟨200, "", .ok (.obj [("name", .str "Bitcoin")])⟩)
    (fun _ => "refused") 5 3 2 (.obj [("name", .str "Bitcoin")])
    (fun i h1 h2 => by
      have hi : i = 1 := by omega
      subst hi
      rfl)
    (by rfl) (by decide) (by decide)

/-- C5 counterexample: a 200-status response whose body fails to decode
produces exactly the same result dictionary as a generic transport error
with the same exception text — the code has no distinct `DecodeError`
classification; the decode failure is caught by the generic
`except RequestException` handler. -/
theorem C5_counterexample :
    safe_api_request
      (.resp ⟨200, "", .error "Expecting value: line 1 column 1 (char 0)"⟩) 5 =
      safe_api_request (.otherReqError "Expecting value: line 1 column 1 (char 0)") 5 ∧
    safe_api_request
      (.resp ⟨200, "", .error "Expecting value: line 1 column 1 (char 0)"⟩) 5 =
      [("success", .bool false),
       ("error", .str "Request failed: Expecting value: line 1 column 1 (char 0)")] :=
  ⟨rfl, rfl⟩

/-- C5 (amended): when the transport succeeds with a non-error status
(below 400) and the body fails to parse, the result is the generic
request-failure dictionary `Request failed: <decode message>` — the same
handler as `OtherRequestError`, not a distinct `DecodeError` — and the
decode check does happen last: an error status takes priority regardless
of the body. -/
theorem C5_decode_failure_generic :
    (∀ (r : HttpResponse) (t : Nat) (m : String),
      r.status_code < 400 → r.body = .error m →
      safe_api_request (.resp r) t =
        [("success", .bool false), ("error", .str ("Request failed: " ++ m))]) ∧
    (∀ (r : HttpResponse) (t : Nat), 400 ≤ r.status_code →
      safe_api_request (.resp r) t =
        [("success", .bool false),
         ("error", .str ("HTTP Error: " ++ toString r.status_code))]) := by
  constructor
  · intro r t m hlt hbody
    simp only [safe_api_request]
    rw [if_neg (show ¬ (r.status_code ≥ 400) by omega), hbody]
  · intro r t h
    simp only [safe_api_request]
    rw [if_pos h]

/-- Witness for C5's amended theorem: both parts at concrete responses. -/
theorem C5_witness :
    safe_api_request
      (.resp ⟨200, "", .error "Expecting value: line 2 column 1 (char 1)"⟩) 7 =
      [("success", .bool false),
       ("error", .str ("Request failed: " ++ "Expecting value: line 2 column 1 (char 1)"))] ∧
    safe_api_request (.resp ⟨500, "500 Server Error", .ok .null⟩) 7 =
      [("success", .bool false),
       ("error", .str ("HTTP Error: " ++ toString (500 : Nat)))] :=
  ⟨C5_decode_failure_generic.1 ⟨200, "", .error "Expecting value: line 2 column 1 (char 1)"⟩
      7 "Expecting value: line 2 column 1 (char 1)" (by decide) rfl,
   C5_decode_failure_generic.2 ⟨500, "500 Server Error", .ok .null⟩ 7 (by decide)⟩

lemma safe_api_request_cases (o : TransportOutcome) (t : Nat) :
    (∃ d, safe_api_request o t = [("success", .bool true), ("data", .json d)]) ∨
    (∃ m, safe_api_request o t = [("success", .bool false), ("error", .str m)]) := by
  cases o with
  | connError m => right; exact ⟨_, rfl⟩
  | timeoutErr m => right; exact ⟨_, rfl⟩
  | otherReqError m => right; exact ⟨_, rfl⟩
  | resp r =>
    simp only [safe_api_request]
    by_cases h : r.status_code ≥ 400
    · rw [if_pos h]; right; exact ⟨_, rfl⟩
    · rw [if_neg h]
      cases hb : r.body with
      | ok d => left; exact ⟨d, rfl⟩
      | error m => right; exact ⟨_, rfl⟩

lemma retryLoop_some_cases (transport : Int → TransportOutcome) (N : Int) :
    ∀ (l : List Int) (r : PyDict), (retryLoop transport N l).1 = some r →
    (∃ d, r = [("success", .bool true), ("data", .json d)]) ∨
    (∃ m, r = [("success", .bool false), ("error", .str m)]) := by
  intro l
  induction l with
  | nil =>
    intro r h
    simp [retryLoop] at h
  | cons a rest ih =>
    intro r h
    simp only [retryLoop] at h
    cases htry : tryAttempt (transport a) with
    | ok d =>
      rw [htry] at h
      simp at h
      left
      exact ⟨d, h.symm⟩
    | error e =>
      rw [htry] at h
      by_cases ha : a = N
      · simp [ha] at h
        right
        exact ⟨_, h.symm⟩
      · simp [ha] at h
        exact ih r h

lemma retry_some_cases (transport : Int → TransportOutcome) (t : Nat) (n : Int)
    (r : PyDict) (h : safe_api_request_with_retry transport t n = some r) :
    (∃ d, r = [("success", .bool true), ("data", .json d)]) ∨
    (∃ m, r = [("success", .bool false), ("error", .str m)]) :=
  retryLoop_some_cases transport n (pyRange 1 (n + 1)) r h

/-- C6: every transport outcome is classified — the single-attempt
executor always returns a success dictionary or a failure dictionary
(and so does the retry wrapper whenever it returns a value); no
transport-level exception crosses the boundary. -/
theorem C6_no_exception_escapes :
    (∀ (o : TransportOutcome) (t : Nat),
      (∃ d, safe_api_request o t = [("success", .bool true), ("data", .json d)]) ∨
      (∃ m, safe_api_request o t = [("success", .bool false), ("error", .str m)])) ∧
    (∀ (transport : Int → TransportOutcome) (t : Nat) (n : Int) (r : PyDict),
      safe_api_request_with_retry transport t n = some r →
      (∃ d, r = [("success", .bool true), ("data", .json d)]) ∨
      (∃ m, r = [("success", .bool false), ("error", .str m)])) :=
  ⟨fun o t => safe_api_request_cases o t,
   fun transport t n r h => retry_some_cases transport t n r h⟩

/-- Witness for C6: the retry part applied to a concrete one-attempt run. -/
theorem C6_witness :
    safe_api_request_with_retry (fun _ => .otherReqError "boom") 5 1 =
      some [("success", .bool false),
            ("error", .str ("Failed after " ++ toString (1 : Int) ++ " attempts: " ++ "boom"))] ∧
    ((∃ d, ([("success", PyVal.bool false),
             ("error", PyVal.str ("Failed after " ++ toString (1 : Int) ++ " attempts: " ++ "boom"))] : PyDict) =
        [("success", .bool true), ("data", .json d)]) ∨
     (∃ m, ([("success", PyVal.bool false),
             ("error", PyVal.str ("Failed after " ++ toString (1 : Int) ++ " attempts: " ++ "boom"))] : PyDict) =
        [("success", .bool false), ("error", .str m)])) :=
  ⟨rfl, C6_no_exception_escapes.2 (fun _ => .otherReqError "boom") 5 1 _ rfl⟩

lemma strAppend_empty (a : String) : a ++ "" = a := by
  apply String.ext
  simp [String.data_append]

lemma strContains_append_right (a s : String) : strContains (a ++ s) s = true := by
  have h := strContains_middle a s ""
  rwa [strAppend_assoc, strAppend_empty] at h

/-- C7: a timed-out attempt reports `Request timed out after {timeout}
seconds.` — the message includes the timeout value used — and a transport
success with status ≥ 400 reports `HTTP Error: {status}` — the message
includes the numeric status code. -/
theorem C7_timeout_and_status_messages :
    (∀ (m : String) (t : Nat),
      safe_api_request (.timeoutErr m) t =
        [("success", .bool false),
         ("error", .str ("Request timed out after " ++ toString t ++ " seconds."))] ∧
      strContains ("Request timed out after " ++ toString t ++ " seconds.")
        (toString t) = true) ∧
    (∀ (r : HttpResponse) (t : Nat), 400 ≤ r.status_code →
      safe_api_request (.resp r) t =
        [("success", .bool false),
         ("error", .str ("HTTP Error: " ++ toString r.status_code))] ∧
      strContains ("HTTP Error: " ++ toString r.status_code)
        (toString r.status_code) = true) := by
  constructor
  · intro m t
    exact ⟨rfl, strContains_middle "Request timed out after " (toString t) " seconds."⟩
  · intro r t h
    constructor
    · simp only [safe_api_request]
      rw [if_pos h]
    · exact strContains_append_right "HTTP Error: " (toString r.status_code)

/-- Witness for C7: a timeout with timeout value 1, and a 404 response. -/
theorem C7_witness :
    (safe_api_request (.timeoutErr "Read timed out.") 1 =
      [("success", .bool false),
       ("error", .str ("Request timed out after " ++ toString (1 : Nat) ++ " seconds."))] ∧
     strContains ("Request timed out after " ++ toString (1 : Nat) ++ " seconds.")
       (toString (1 : Nat)) = true) ∧
    (safe_api_request (.resp ⟨404, "404 Client Error: Not Found", .ok .null⟩) 5 =
      [("success", .bool false),
       ("error", .str ("HTTP Error: " ++ toString (404 : Nat)))] ∧
     strContains ("HTTP Error: " ++ toString (404 : Nat)) (toString (404 : Nat)) = true) :=
  ⟨C7_timeout_and_status_messages.1 "Read timed out." 1,
   C7_timeout_and_status_messages.2 ⟨404, "404 Client Error: Not Found", .ok .null⟩ 5
     (by decide)⟩

lemma shape_of_success_dict (d : Json) :
    pyHasKey [("success", .bool true), ("data", .json d)] "success" = true ∧
    (pyHasKey [("success", .bool true), ("data", .json d)] "data" = true ↔
      pyLookup [("success", .bool true), ("data", .json d)] "success" =
        some (.bool true)) ∧
    (pyHasKey [("success", .bool true), ("data", .json d)] "error" = true ↔
      pyLookup [("success", .bool true), ("data", .json d)] "success" =
        some (.bool false)) := by
  refine ⟨rfl, ⟨fun _ => rfl, fun _ => rfl⟩, ⟨fun h => ?_, fun h => ?_⟩⟩
  · exact absurd h (by simp [pyHasKey])
  · exact absurd h (by simp [pyLookup])

lemma shape_of_failure_dict (m : String) :
    pyHasKey [("success", .bool false), ("error", .str m)] "success" = true ∧
    (pyHasKey [("success", .bool false), ("error", .str m)] "data" = true ↔
      pyLookup [("success", .bool false), ("error", .str m)] "success" =
        some (.bool true)) ∧
    (pyHasKey [("success", .bool false), ("error", .str m)] "error" = true ↔
      pyLookup [("success", .bool false), ("error", .str m)] "success" =
        some (.bool false)) := by
  refine ⟨rfl, ⟨fun h => ?_, fun h => ?_⟩, ⟨fun _ => rfl, fun _ => rfl⟩⟩
  · exact absurd h (by simp [pyHasKey])
  · exact absurd h (by simp [pyLookup])

/-- C9: every dictionary returned by the single-attempt executor, and
every dictionary the retry wrapper returns when it returns one, contains
the key `success`; it contains `data` iff `success` maps to `True` and
contains `error` iff `success` maps to `False`. -/
theorem C9_result_dict_shape :
    (∀ (o : TransportOutcome) (t : Nat),
      pyHasKey (safe_api_request o t) "success" = true ∧
      (pyHasKey (safe_api_request o t) "data" = true ↔
        pyLookup (safe_api_request o t) "success" = some (.bool true)) ∧
      (pyHasKey (safe_api_request o t) "error" = true ↔
        pyLookup (safe_api_request o t) "success" = some (.bool false))) ∧
    (∀ (transport : Int → TransportOutcome) (t : Nat) (n : Int) (r : PyDict),
      safe_api_request_with_retry transport t n = some r →
      pyHasKey r "success" = true ∧
      (pyHasKey r "data" = true ↔ pyLookup r "success" = some (.bool true)) ∧
      (pyHasKey r "error" = true ↔ pyLookup r "success" = some (.bool false))) := by
  constructor
  · intro o t
    rcases safe_api_request_cases o t with ⟨d, hd⟩ | ⟨m, hm⟩
    · rw [hd]; exact shape_of_success_dict d
    · rw [hm]; exact shape_of_failure_dict m
  · intro transport t n r h
    rcases retry_some_cases transport t n r h with ⟨d, hd⟩ | ⟨m, hm⟩
    · rw [hd]; exact shape_of_success_dict d
    · rw [hm]; exact shape_of_failure_dict m

/-- Witness for C9: the retry part applied to a one-attempt failing run. -/
theorem C9_witness :
    safe_api_request_with_retry (fun _ => .connError "refused") 5 1 =
      some [("success", .bool false),
            ("error", .str ("Failed after " ++ toString (1 : Int) ++ " attempts: " ++ "refused"))] ∧
    (pyHasKey [("success", PyVal.bool false),
        ("error", PyVal.str ("Failed after " ++ toString (1 : Int) ++ " attempts: " ++ "refused"))]
        "success" = true ∧
     (pyHasKey [("success", PyVal.bool false),
         ("error", PyVal.str ("Failed after " ++ toString (1 : Int) ++ " attempts: " ++ "refused"))]
         "data" = true ↔
       pyLookup [("success", PyVal.bool false),
         ("error", PyVal.str ("Failed after " ++ toString (1 : Int) ++ " attempts: " ++ "refused"))]
         "success" = some (.bool true)) ∧
     (pyHasKey [("success", PyVal.bool false),
         ("error", PyVal.str ("Failed after " ++ toString (1 : Int) ++ " attempts: " ++ "refused"))]
         "error" = true ↔
       pyLookup [("success", PyVal.bool false),
         ("error", PyVal.str ("Failed after " ++ toString (1 : Int) ++ " attempts: " ++ "refused"))]
         "success" = some (.bool false))) :=
  ⟨rfl, C9_result_dict_shape.2 (fun _ => .connError "refused") 5 1 _ rfl⟩

/-- C2: the validator returns the Valid dictionary iff the payload's
quotes container has a `USD` entry containing both `price` and
`percent_change_24h`; and when the first two tiers pass but both required
fields are absent, the Invalid reason lists both missing fields. -/
theorem C2_valid_iff (data : Json) (r : PyDict)
    (h : validate_crypto_data data = .ok r) :
    ((r = [("valid", .bool true)]) ↔
      (pyContains data "quotes" = .ok true ∧
       ∃ q, pyGet data "quotes" = .ok q ∧
         pyContains q "USD" = .ok true ∧
         ∃ u, pyGet q "USD" = .ok u ∧
           pyContains u "price" = .ok true ∧
           pyContains u "percent_change_24h" = .ok true)) ∧
    (∀ q u, pyContains data "quotes" = .ok true →
      pyGet data "quotes" = .ok q →
      pyContains q "USD" = .ok true →
      pyGet q "USD" = .ok u →
      pyContains u "price" = .ok false →
      pyContains u "percent_change_24h" = .ok false →
      r = [("valid", .bool false),
           ("error", .str ("Missing fields inside USD: " ++
              pyReprStrList ["price", "percent_change_24h"]))]) := by
  unfold validate_crypto_data at h
  split at h
  next e heq => exact Except.noConfusion h
  next hasQ heq =>
  split at h
  next hcond =>
    have hq0 : hasQ = false := by revert hcond; cases hasQ <;> simp
    subst hq0
    injection h with h
    subst h
    constructor
    · constructor
      · intro hval; exact absurd hval (by simp)
      · rintro ⟨hq, -⟩
        rw [heq] at hq
        simp at hq
    · intro q u hq _ _ _ _ _
      rw [heq] at hq
      simp at hq
  next hcond =>
    have hq1 : hasQ = true := by revert hcond; cases hasQ <;> simp
    subst hq1
    split at h
    next e heqq => exact Except.noConfusion h
    next q heqq =>
    split at h
    next e hequ => exact Except.noConfusion h
    next hasU hequ =>
    split at h
    next hcond2 =>
      have hu0 : hasU = false := by revert hcond2; cases hasU <;> simp
      subst hu0
      injection h with h
      subst h
      constructor
      · constructor
        · intro hval; exact absurd hval (by simp)
        · rintro ⟨-, q', hq', hu', -⟩
          rw [heqq] at hq'
          injection hq' with hq'
          subst hq'
          rw [hequ] at hu'
          simp at hu'
      · intro q' u' _ hq' hu' _ _ _
        rw [heqq] at hq'
        injection hq' with hq'
        subst hq'
        rw [hequ] at hu'
        simp at hu'
    next hcond2 =>
      have hu1 : hasU = true := by revert hcond2; cases hasU <;> simp
      subst hu1
      split at h
      next e heug => exact Except.noConfusion h
      next u heug =>
      split at h
      next e heqcm => exact Except.noConfusion h
      next missing heqcm =>
      cases h3 : pyContains u "price" with
      | error e =>
        have hcm : collectMissing u ["price", "percent_change_24h"] = .error e := by
          simp only [collectMissing]
          rw [h3]
        rw [hcm] at heqcm
        exact Except.noConfusion heqcm
      | ok b1 =>
        cases h4 : pyContains u "percent_change_24h" with
        | error e =>
          have hcm : collectMissing u ["price", "percent_change_24h"] = .error e := by
            simp only [collectMissing]
            rw [h3, h4]
          rw [hcm] at heqcm
          exact Except.noConfusion heqcm
        | ok b2 =>
          cases b1 with
          | true =>
            cases b2 with
            | true =>
              have hcm : collectMissing u ["price", "percent_change_24h"] =
                  .ok [] := by
                simp only [collectMissing]
                rw [h3, h4]
                rfl
              rw [hcm] at heqcm
              injection heqcm with heqcm
              subst heqcm
              simp only [List.isEmpty_nil, if_true] at h
              injection h with h
              subst h
              refine ⟨⟨fun _ => ⟨heq, q, heqq, hequ, u, heug, h3, h4⟩,
                fun _ => rfl⟩, ?_⟩
              intro q' u' _ hq' _ hu' hp' _
              rw [heqq] at hq'
              injection hq' with hq'
              subst hq'
              rw [heug] at hu'
              injection hu' with hu'
              subst hu'
              rw [h3] at hp'
              simp at hp'
            | false =>
              have hcm : collectMissing u ["price", "percent_change_24h"] =
                  .ok ["percent_change_24h"] := by
                simp only [collectMissing]
                rw [h3, h4]
                rfl
              rw [hcm] at heqcm
              injection heqcm with heqcm
              subst heqcm
              simp only [List.isEmpty_cons, if_false] at h
              injection h with h
              subst h
              constructor
              · constructor
                · intro hval; exact absurd hval (by simp)
                · rintro ⟨-, q', hq', -, u', hu', -, hp2⟩
                  rw [heqq] at hq'
                  injection hq' with hq'
                  subst hq'
                  rw [heug] at hu'
                  injection hu' with hu'
                  subst hu'
                  rw [h4] at hp2
                  simp at hp2
              · intro q' u' _ hq' _ hu' hp' _
                rw [heqq] at hq'
                injection hq' with hq'
                subst hq'
                rw [heug] at hu'
                injection hu' with hu'
                subst hu'
                rw [h3] at hp'
                simp at hp'
          | false =>
            cases b2 with
            | true =>
              have hcm : collectMissing u ["price", "percent_change_24h"] =
                  .ok ["price"] := by
                simp only [collectMissing]
                rw [h3, h4]
                rfl
              rw [hcm] at heqcm
              injection heqcm with heqcm
              subst heqcm
              simp only [List.isEmpty_cons, if_false] at h
              injection h with h
              subst h
              constructor
              · constructor
                · intro hval; exact absurd hval (by simp)
                · rintro ⟨-, q', hq', -, u', hu', hp1, -⟩
                  rw [heqq] at hq'
                  injection hq' with hq'
                  subst hq'
                  rw [heug] at hu'
                  injection hu' with hu'
                  subst hu'
                  rw [h3] at hp1
                  simp at hp1
              · intro q' u' _ hq' _ hu' _ hc'
                rw [heqq] at hq'
                injection hq' with hq'
                subst hq'
                rw [heug] at hu'
                injection hu' with hu'
                subst hu'
                rw [h4] at hc'
                simp at hc'
            | false =>
              have hcm : collectMissing u ["price", "percent_change_24h"] =
                  .ok ["price", "percent_change_24h"] := by
                simp only [collectMissing]
                rw [h3, h4]
                rfl
              rw [hcm] at heqcm
              injection heqcm with heqcm
              subst heqcm
              simp only [List.isEmpty_cons, if_false] at h
              injection h with h
              subst h
              constructor
              · constructor
                · intro hval; exact absurd hval (by simp)
                · rintro ⟨-, q', hq', -, u', hu', hp1, -⟩
                  rw [heqq] at hq'
                  injection hq' with hq'
                  subst hq'
                  rw [heug] at hu'
                  injection hu' with hu'
                  subst hu'
                  rw [h3] at hp1
                  simp at hp1
              · intro q' u' _ _ _ _ _ _
                rfl

/-- Witness for C2: a fully populated payload, on which the validator
returns the Valid dictionary and the characterization applies. -/
theorem C2_witness :
    validate_crypto_data
      (.obj [("quotes", .obj [("USD", .obj [("price", .num 50000),
        ("percent_change_24h", .num 2)])])]) = .ok [("valid", .bool true)] ∧
    ((([("valid", PyVal.bool true)] : PyDict) = [("valid", .bool true)]) ↔
      (pyContains
          (.obj [("quotes", .obj [("USD", .obj [("price", .num 50000),
            ("percent_change_24h", .num 2)])])]) "quotes" = .ok true ∧
       ∃ q, pyGet
          (.obj [("quotes", .obj [("USD", .obj [("price", .num 50000),
            ("percent_change_24h", .num 2)])])]) "quotes" = .ok q ∧
         pyContains q "USD" = .ok true ∧
         ∃ u, pyGet q "USD" = .ok u ∧
           pyContains u "price" = .ok true ∧
           pyContains u "percent_change_24h" = .ok true)) ∧
    (∀ q u, pyContains
        (.obj [("quotes", .obj [("USD", .obj [("price", .num 50000),
          ("percent_change_24h", .num 2)])])]) "quotes" = .ok true →
      pyGet
        (.obj [("quotes", .obj [("USD", .obj [("price", .num 50000),
          ("percent_change_24h", .num 2)])])]) "quotes" = .ok q →
      pyContains q "USD" = .ok true →
      pyGet q "USD" = .ok u →
      pyContains u "price" = .ok false →
      pyContains u "percent_change_24h" = .ok false →
      ([("valid", PyVal.bool true)] : PyDict) =
        [("valid", .bool false),
         ("error", .str ("Missing fields inside USD: " ++
            pyReprStrList ["price", "percent_change_24h"]))]) :=
  ⟨rfl, C2_valid_iff
    (.obj [("quotes", .obj [("USD", .obj [("price", .num 50000),
      ("percent_change_24h", .num 2)])])]) [("valid", .bool true)] rfl⟩
